import Mathlib

/-!
Verification of the TMDB movie-browser pagination core (`src/app.py`).

The development shallowly embeds, from the source:
* the display/upstream page-size constants and the index arithmetic of
  `_fetch_window_by_ui_page` (lines 204-206);
* the window-stitching adapter `_fetch_window_by_ui_page` itself
  (lines 193-231), instrumented with the ordered list of upstream page
  numbers it fetches;
* the upstream client `tmdb_get` (lines 24-32) over an abstract HTTP
  world, instrumented with the number of network calls issued;
* the request-parameter construction of `discover_movies` (lines 59-84);
* the TTL response cache (`st.cache_data`), modelled from the spec since
  the cache implementation lives in the host framework, not in the
  repository source.
-/

namespace Movie

/-- An upstream result page as the source's fetchers return it:
`(results, total_results, total_pages)` — see `search_movies` /
`discover_movies` returning
`data.get("results", []), int(data.get("total_results", 0)), int(data.get("total_pages", 1))`. -/
abbrev Page (α : Type) := List α × Nat × Nat

/-- `UI_COLS = 3` (src/app.py line 188). -/
def UI_COLS : Nat := 3

/-- `UI_ROWS = 4` (src/app.py line 189). -/
def UI_ROWS : Nat := 4

/-- `UI_PAGE_SIZE = UI_COLS * UI_ROWS` (src/app.py line 190). -/
def UI_PAGE_SIZE : Nat := UI_COLS * UI_ROWS

/-- `TMDB_PAGE_SIZE = 20` (src/app.py line 191). -/
def TMDB_PAGE_SIZE : Nat := 20

/-- `start_global = (ui_page - 1) * UI_PAGE_SIZE` (src/app.py line 204),
with the display page size abstracted as `D`. -/
def start_global (D p : Nat) : Nat := (p - 1) * D

/-- `api_page = start_global // TMDB_PAGE_SIZE + 1` (src/app.py line 205),
with the upstream page size abstracted as `U`. -/
def api_page (U D p : Nat) : Nat := start_global D p / U + 1

/-- `offset = start_global % TMDB_PAGE_SIZE` (src/app.py line 206). -/
def offset (U D p : Nat) : Nat := start_global D p % U

/-- The window adapter `_fetch_window_by_ui_page` (src/app.py lines
193-231), with the two fetchers (`search_movies`/`discover_movies`)
abstracted into one function `fetch` from an upstream page number to a
`Page`, and the page sizes abstracted as `D` (display) and `U`
(upstream).  The second component of the result is the ordered list of
upstream page numbers fetched, instrumenting the one or two upstream
calls the Python body performs.

Mirrors the source line by line: `buf = page1[offset : offset + need]`
with `need = UI_PAGE_SIZE` is `(page1.drop offset).take D` (Python
slices clamp), `need -= len(buf)`, and if `need > 0` the next upstream
page is fetched and `buf += page2[:min(need, len(page2))]`.
`total_ui_pages = max(1, math.ceil(total / UI_PAGE_SIZE))` is modelled
with the exact natural-number ceiling `(total + D - 1) / D`. -/
def fetchWindow {α : Type} (D U : Nat) (fetch : Nat → Page α) (p : Nat) :
    (List α × Nat × Nat) × List Nat :=
  let ap := api_page U D p
  let off := offset U D p
  let page1 := (fetch ap).1
  let total := (fetch ap).2.1
  let totalUiPages := max 1 ((total + D - 1) / D)
  let buf := (page1.drop off).take D
  let need := D - buf.length
  if 0 < need then
    let page2 := (fetch (ap + 1)).1
    ((buf ++ page2.take (min need page2.length), total, totalUiPages),
      [ap, ap + 1])
  else
    ((buf, total, totalUiPages), [ap])

/-- `_fetch_window_by_ui_page` at the source's actual constants:
display pages of `UI_PAGE_SIZE = 12` stitched from upstream pages of
`TMDB_PAGE_SIZE = 20`. -/
def fetch_window_by_ui_page {α : Type} (fetch : Nat → Page α) (p : Nat) :
    (List α × Nat × Nat) × List Nat :=
  fetchWindow UI_PAGE_SIZE TMDB_PAGE_SIZE fetch p

/-- The idealised upstream service assumed by the spec's pagination
claims: a fixed global result list served in consecutive pages of `U`
items, so every page before the last is full.  `total_results` is the
length of the global list and `total_pages = max(1, ceil(len / U))`,
matching TMDB's paging contract. -/
def idealFetch {α : Type} (U : Nat) (allItems : List α) : Nat → Page α :=
  fun n =>
    ((allItems.drop ((n - 1) * U)).take U, allItems.length,
      max 1 ((allItems.length + U - 1) / U))

/-- Modelled from the spec: one entry of the response cache (§3
`CacheEntry = { key, value, expiresAt }`).  The cache implementation is
`st.cache_data` of the host framework and is not part of the repository
source. -/
structure CacheEntry (κ α : Type) where
  key : κ
  value : α
  expiresAt : Nat

/-- Modelled from the spec: the response cache owned by the memoization
layer, a collection of `CacheEntry` values. -/
abbrev Cache (κ α : Type) := List (CacheEntry κ α)

/-- Modelled from the spec: cache lookup with lazy expiry — an entry is
returned only on a hit with `now < expiresAt` (§4.2). -/
def lookupFresh {κ α : Type} [DecidableEq κ] (c : Cache κ α) (k : κ) (now : Nat) :
    Option α :=
  match c.find? (fun e => decide (e.key = k) && decide (now < e.expiresAt)) with
  | some e => some e.value
  | none => none

/-- Modelled from the spec: `memoize(key, ttlSeconds, producerFn)`
(§4.2): on a fresh hit, return the stored value without invoking the
producer; on a miss or expiry, invoke the producer exactly once and
store the result with `expiresAt = now + ttlSeconds`.  The `Bool` in the
result records whether the producer was invoked. -/
def memoize {κ α : Type} [DecidableEq κ] (c : Cache κ α) (k : κ) (ttl now : Nat)
    (producer : Unit → α) : α × Cache κ α × Bool :=
  match lookupFresh c k now with
  | some v => (v, c, false)
  | none =>
    let v := producer ()
    (v, ⟨k, v, now + ttl⟩ :: c, true)

/-- One upstream fetch routed through the cache, as `search_movies` /
`discover_movies` are wrapped by `@st.cache_data(ttl=600)` (src/app.py
lines 53, 59).  The state is the cache plus a running count of producer
(network) invocations; the key is the upstream page number (the other
key components — keyword/filters and language — are fixed within one
window resolution). -/
def cachedFetch {α : Type} (producer : Nat → Page α) (ttl now : Nat)
    (s : Cache Nat (Page α) × Nat) (k : Nat) : Page α × (Cache Nat (Page α) × Nat) :=
  let r := memoize s.1 k ttl now (fun _ => producer k)
  (r.1, r.2.1, s.2 + (if r.2.2 then 1 else 0))

/-- `_fetch_window_by_ui_page` with its upstream fetches routed through
the response cache, threading the cache state and the producer-call
count explicitly.  The slicing and stitching body is that of
`fetchWindow` at the source constants (12 / 20). -/
def fetchWindowCached {α : Type} (producer : Nat → Page α) (ttl now : Nat)
    (s : Cache Nat (Page α) × Nat) (p : Nat) :
    (List α × Nat × Nat) × (Cache Nat (Page α) × Nat) :=
  let ap := api_page TMDB_PAGE_SIZE UI_PAGE_SIZE p
  let off := offset TMDB_PAGE_SIZE UI_PAGE_SIZE p
  let f1 := cachedFetch producer ttl now s ap
  let total := f1.1.2.1
  let totalUiPages := max 1 ((total + UI_PAGE_SIZE - 1) / UI_PAGE_SIZE)
  let buf := (f1.1.1.drop off).take UI_PAGE_SIZE
  let need := UI_PAGE_SIZE - buf.length
  if 0 < need then
    let f2 := cachedFetch producer ttl now f1.2 (ap + 1)
    ((buf ++ f2.1.1.take (min need f2.1.1.length), total, totalUiPages), f2.2)
  else
    ((buf, total, totalUiPages), f1.2)

/-- The error taxonomy of the upstream client, as the spec names the
exceptions `tmdb_get` (src/app.py lines 24-32) can raise:
`authError` is `RuntimeError("Missing TMDB API key")`,
`upstreamError status body` is `requests.HTTPError` from
`r.raise_for_status()`, and `networkError` is a `requests` timeout or
connection failure. -/
inductive TmdbError
  | authError
  | upstreamError (status : Nat) (body : String)
  | networkError
deriving DecidableEq

/-- The state of the network for one outbound request: `response` is
the final HTTP response `(status, body)` or `none` for a connection
failure, and `latency` is how long the request takes. -/
structure HttpWorld where
  latency : Nat
  response : Option (Nat × String)

/-- `requests.get(..., timeout=budget)` over an `HttpWorld`: a latency
above the budget raises a timeout, a missing response is a connection
failure, both surfaced as `networkError`. -/
def requests_get (w : HttpWorld) (budget : Nat) : Except TmdbError (Nat × String) :=
  if budget < w.latency then .error .networkError
  else
    match w.response with
    | none => .error .networkError
    | some r => .ok r

/-- `r.raise_for_status()`: raises `requests.HTTPError` exactly for 4xx
client errors and 5xx server errors (`400 <= status < 600`), carrying
the response's status and body. -/
def raise_for_status (status : Nat) (body : String) : Except TmdbError Unit :=
  if 400 ≤ status ∧ status < 600 then .error (.upstreamError status body) else .ok ()

/-- `tmdb_get` (src/app.py lines 24-32): reads the credential from
session state; raises `RuntimeError` when it is absent/empty — before
any network call —, otherwise issues one `requests.get` with
`timeout=20` and runs `raise_for_status` on the response.  The second
component counts the network calls issued. -/
def tmdb_get (sessionKey : String) (w : HttpWorld) : Except TmdbError String × Nat :=
  if sessionKey = "" then (.error .authError, 0)
  else
    match requests_get w 20 with
    | .error e => (.error e, 1)
    | .ok (status, body) =>
      match raise_for_status status body with
      | .error e => (.error e, 1)
      | .ok _ => (.ok body, 1)

/-- Modelled from the spec: `memoize` over a fallible producer (§4.2
"if `producerFn` fails, no entry is stored; the failure propagates to
the caller unmodified"), matching `st.cache_data`'s behaviour of not
caching a raising call. -/
def memoizeE {κ α ε : Type} [DecidableEq κ] (c : Cache κ α) (k : κ) (ttl now : Nat)
    (producer : Unit → Except ε α) : Except ε α × Cache κ α :=
  match lookupFresh c k now with
  | some v => (.ok v, c)
  | none =>
    match producer () with
    | .error e => (.error e, c)
    | .ok v => (.ok v, ⟨k, v, now + ttl⟩ :: c)

/-- `_fetch_window_by_ui_page` over a fallible upstream fetch: a Python
exception raised by either fetch aborts the function, so any fetch
failure propagates and no partial window is returned. -/
def fetchWindowE {α ε : Type} (fetch : Nat → Except ε (Page α)) (p : Nat) :
    Except ε (List α × Nat × Nat) :=
  let ap := api_page TMDB_PAGE_SIZE UI_PAGE_SIZE p
  match fetch ap with
  | .error e => .error e
  | .ok pg1 =>
    let total := pg1.2.1
    let totalUiPages := max 1 ((total + UI_PAGE_SIZE - 1) / UI_PAGE_SIZE)
    let buf := (pg1.1.drop (offset TMDB_PAGE_SIZE UI_PAGE_SIZE p)).take UI_PAGE_SIZE
    let need := UI_PAGE_SIZE - buf.length
    if 0 < need then
      match fetch (ap + 1) with
      | .error e => .error e
      | .ok pg2 => .ok (buf ++ pg2.1.take (min need pg2.1.length), total, totalUiPages)
    else .ok (buf, total, totalUiPages)

/-- A request-parameter value as built by `discover_movies` (src/app.py
lines 64-82): strings, integers, booleans and the float vote bounds are
stored verbatim in the `params` dict; serialisation to the wire is the
HTTP layer's concern. -/
inductive PVal
  | s (v : String)
  | n (v : Int)
  | b (v : Bool)
  | q (v : ℚ)
deriving DecidableEq

/-- The `params` dict built by `discover_movies` (src/app.py lines
64-82), in insertion order.  The eight base entries are unconditional;
`with_genres`, `primary_release_year`, `region` and
`with_original_language` are added only when the corresponding argument
is truthy in Python (`None`, `[]`, `0` and `""` are all falsy).
`with_genres` is serialised as `",".join(map(str, with_genres))` and
`year` as `int(year)`. -/
def discover_params (page : Nat) (lang : String) (with_genres : Option (List Nat))
    (year : Option Nat) (region : Option String) (sort_by : String)
    (include_adult : Bool) (vote_gte vote_lte : ℚ) (runtime_gte runtime_lte : Nat)
    (original_lang : Option String) : List (String × PVal) :=
  let base : List (String × PVal) :=
    [("language", .s lang), ("page", .n page), ("sort_by", .s sort_by),
     ("include_adult", .b include_adult), ("vote_average.gte", .q vote_gte),
     ("vote_average.lte", .q vote_lte), ("with_runtime.gte", .n runtime_gte),
     ("with_runtime.lte", .n runtime_lte)]
  let p1 := match with_genres with
    | some gs =>
      if gs ≠ [] then
        base ++ [("with_genres", .s (String.intercalate "," (gs.map toString)))]
      else base
    | none => base
  let p2 := match year with
    | some y => if y ≠ 0 then p1 ++ [("primary_release_year", .n y)] else p1
    | none => p1
  let p3 := match region with
    | some r => if r ≠ "" then p2 ++ [("region", .s r)] else p2
    | none => p2
  match original_lang with
  | some ol => if ol ≠ "" then p3 ++ [("with_original_language", .s ol)] else p3
  | none => p3

/-- The memoization key of `search_movies` (src/app.py lines 53-57):
the wrapper's explicit arguments `(query, page, lang)` and nothing
else. -/
abbrev SearchKey := String × Nat × String

/-- Modelled from the spec: `search_movies` as wrapped by
`@st.cache_data(ttl=600)`.  The cache key is the wrapper's explicit
argument tuple; the credential is read from session state inside
`tmdb_get` (the producer) and is not part of the key.  On a fresh hit
the stored value is returned and `tmdb_get` is not entered at all; on a
miss the producer halts with `authError` before any network call when
the credential is empty, and otherwise issues exactly one network call
(counted in the last component) and stores the result. -/
def search_movies_cached {α : Type} (upstream : SearchKey → α)
    (c : Cache SearchKey α) (now : Nat) (cred : String) (k : SearchKey) :
    Except TmdbError α × Cache SearchKey α × Nat :=
  match lookupFresh c k now with
  | some v => (.ok v, c, 0)
  | none =>
    if cred = "" then (.error .authError, c, 0)
    else (.ok (upstream k), ⟨k, upstream k, now + 600⟩ :: c, 1)

/-! Helper lemmas about the cache model, shared by several claims. -/

/-- Looking a key up in a cache whose first entry carries a different
key falls through to the rest of the cache. -/
theorem lookupFresh_cons_ne {κ α : Type} [DecidableEq κ] {k' k : κ} (hk : k' ≠ k)
    (v : α) (e : Nat) (c : Cache κ α) (now : Nat) :
    lookupFresh (⟨k', v, e⟩ :: c) k now = lookupFresh c k now := by
  simp [lookupFresh, List.find?, hk]

/-- Looking a key up in a cache whose first entry carries that key and
is still fresh returns the stored value. -/
theorem lookupFresh_cons_self {κ α : Type} [DecidableEq κ] (k : κ) (v : α) (e : Nat)
    (c : Cache κ α) (now : Nat) (hfresh : now < e) :
    lookupFresh (⟨k, v, e⟩ :: c) k now = some v := by
  simp [lookupFresh, List.find?, hfresh]

/-- On a cache miss, `memoize` invokes the producer once and stores the
result with `expiresAt = now + ttl`. -/
theorem memoize_of_lookup_none {κ α : Type} [DecidableEq κ] {c : Cache κ α} {k : κ}
    {now : Nat} (ttl : Nat) (producer : Unit → α) (h : lookupFresh c k now = none) :
    memoize c k ttl now producer = (producer (), ⟨k, producer (), now + ttl⟩ :: c, true) := by
  simp [memoize, h]

/-- On a fresh cache hit, `memoize` returns the stored value without
invoking the producer and leaves the cache unchanged. -/
theorem memoize_of_lookup_some {κ α : Type} [DecidableEq κ] {c : Cache κ α} {k : κ}
    {now : Nat} {v : α} (ttl : Nat) (producer : Unit → α) (h : lookupFresh c k now = some v) :
    memoize c k ttl now producer = (v, c, false) := by
  simp [memoize, h]

/-- A cache-missing `cachedFetch` calls the producer (incrementing the
call count) and stores the produced page. -/
theorem cachedFetch_miss {α : Type} {producer : Nat → Page α} {ttl now : Nat}
    {s : Cache Nat (Page α) × Nat} {k : Nat} (h : lookupFresh s.1 k now = none) :
    cachedFetch producer ttl now s k
      = (producer k, ⟨k, producer k, now + ttl⟩ :: s.1, s.2 + 1) := by
  simp [cachedFetch, memoize_of_lookup_none _ _ h]

/-- A cache-hitting `cachedFetch` returns the stored page and changes
neither the cache nor the call count. -/
theorem cachedFetch_hit {α : Type} {producer : Nat → Page α} {ttl now : Nat}
    {s : Cache Nat (Page α) × Nat} {k : Nat} {v : Page α}
    (h : lookupFresh s.1 k now = some v) :
    cachedFetch producer ttl now s k = (v, s.1, s.2) := by
  simp [cachedFetch, memoize_of_lookup_some _ _ h]

/-- Unfolding of `fetchWindowCached` once the result of its first
cached fetch is known. -/
theorem fetchWindowCached_eq_of {α : Type} (producer : Nat → Page α) (ttl now : Nat)
    (s : Cache Nat (Page α) × Nat) (p : Nat) (P1 : Page α)
    (s1 : Cache Nat (Page α) × Nat)
    (h1 : cachedFetch producer ttl now s (api_page TMDB_PAGE_SIZE UI_PAGE_SIZE p) = (P1, s1)) :
    fetchWindowCached producer ttl now s p =
      (if 0 < UI_PAGE_SIZE -
            ((P1.1.drop (offset TMDB_PAGE_SIZE UI_PAGE_SIZE p)).take UI_PAGE_SIZE).length then
        (((P1.1.drop (offset TMDB_PAGE_SIZE UI_PAGE_SIZE p)).take UI_PAGE_SIZE ++
            (cachedFetch producer ttl now s1
              (api_page TMDB_PAGE_SIZE UI_PAGE_SIZE p + 1)).1.1.take
              (min (UI_PAGE_SIZE -
                ((P1.1.drop (offset TMDB_PAGE_SIZE UI_PAGE_SIZE p)).take UI_PAGE_SIZE).length)
                (cachedFetch producer ttl now s1
                  (api_page TMDB_PAGE_SIZE UI_PAGE_SIZE p + 1)).1.1.length),
          P1.2.1, max 1 ((P1.2.1 + UI_PAGE_SIZE - 1) / UI_PAGE_SIZE)),
          (cachedFetch producer ttl now s1 (api_page TMDB_PAGE_SIZE UI_PAGE_SIZE p + 1)).2)
      else
        (((P1.1.drop (offset TMDB_PAGE_SIZE UI_PAGE_SIZE p)).take UI_PAGE_SIZE,
          P1.2.1, max 1 ((P1.2.1 + UI_PAGE_SIZE - 1) / UI_PAGE_SIZE)), s1)) := by
  simp only [fetchWindowCached, h1]

/-! Claim theorems. -/

/-- Claim C1, as amended: for every `displayPage ≥ 1`,
`displayPageSize > 0`, `upstreamPageSize > 0` with
`displayPageSize ≤ upstreamPageSize`, the window adapter returns at
most `displayPageSize` items (for any fetcher), and — over an upstream
where every page before the last is full — exactly `displayPageSize`
items whenever `totalItems - (displayPage-1)*displayPageSize ≥
displayPageSize`.  The original claim, without
`displayPageSize ≤ upstreamPageSize`, is refuted by
`claim1_counterexample`: the adapter fetches at most two upstream
pages, which cannot fill a display page larger than two upstream
pages. -/
theorem claim1_window_size {α : Type} (D U p : Nat) (fetch : Nat → Page α)
    (allItems : List α) (hp : 1 ≤ p) (hD : 0 < D) (hU : 0 < U) (hDU : D ≤ U)
    (hN : (p - 1) * D + D ≤ allItems.length) :
    ((fetchWindow D U fetch p).1.1.length ≤ D) ∧
    ((fetchWindow D U (idealFetch U allItems) p).1.1.length = D) := by
  have hdm := Nat.div_add_mod ((p - 1) * D) U
  rw [Nat.mul_comm] at hdm
  have hr : (p - 1) * D % U < U := Nat.mod_lt _ hU
  constructor
  · simp only [fetchWindow]
    split <;> simp only [List.length_append, List.length_take, List.length_drop] <;> omega
  · simp only [fetchWindow, idealFetch, api_page, offset, start_global, Nat.add_sub_cancel,
      Nat.succ_mul]
    split <;> rename_i h <;>
      simp only [List.length_append, List.length_take, List.length_drop] at h ⊢
    · generalize hqU : (p - 1) * D / U * U = t at h hdm ⊢
      generalize hrr : (p - 1) * D % U = r at h hdm hr ⊢
      generalize hs : (p - 1) * D = s at hdm hN ⊢
      omega
    · generalize hqU : (p - 1) * D / U * U = t at h hdm ⊢
      generalize hrr : (p - 1) * D % U = r at h hdm hr ⊢
      generalize hs : (p - 1) * D = s at hdm hN ⊢
      omega

/-- Claim C1 as originally stated is false: with `displayPageSize = 41`,
`upstreamPageSize = 20`, `displayPage = 1` over a full-page upstream of
`50` items, `totalItems - (displayPage-1)*41 = 50 ≥ 41`, yet the
adapter returns only `40` items (it fetches at most two upstream
pages). -/
theorem claim1_counterexample :
    ((fetchWindow 41 20 (idealFetch 20 (List.range 50)) 1).1.1).length = 40 ∧
    (1 - 1) * 41 + 41 ≤ (List.range 50).length := by decide

/-- Witness for `claim1_window_size` at `D = 12`, `U = 20`,
`displayPage = 2` over a 40-item upstream. -/
theorem claim1_witness :
    ((fetchWindow 12 20 (idealFetch 20 (List.range 40)) 2).1.1.length ≤ 12) ∧
    ((fetchWindow 12 20 (idealFetch 20 (List.range 40)) 2).1.1.length = 12) :=
  claim1_window_size 12 20 2 (idealFetch 20 (List.range 40)) (List.range 40)
    (by decide) (by decide) (by decide) (by decide) (by decide)

/-- Claim C2: with `displayPageSize = 12`, `upstreamPageSize = 20`,
`displayPage = 2`, the adapter derives `globalStart = 12`,
`upstreamPageNumber = 1`, `offsetInPage = 12`, and — when upstream page
1 has 20 items and page 2 has at least 4 — returns page 1's
`items[12:20]` followed by page 2's `items[0:4]`, 12 items total. -/
theorem claim2_boundary_stitch {α : Type} (p1 p2 : List α) (t tp : Nat)
    (h1 : p1.length = 20) (h2 : 4 ≤ p2.length) :
    start_global UI_PAGE_SIZE 2 = 12 ∧
    api_page TMDB_PAGE_SIZE UI_PAGE_SIZE 2 = 1 ∧
    offset TMDB_PAGE_SIZE UI_PAGE_SIZE 2 = 12 ∧
    (fetch_window_by_ui_page (fun n => if n = 1 then (p1, t, tp) else (p2, t, tp)) 2).1.1
      = p1.drop 12 ++ p2.take 4 ∧
    (fetch_window_by_ui_page (fun n => if n = 1 then (p1, t, tp) else (p2, t, tp)) 2).1.1.length
      = 12 := by
  have hd : (p1.drop 12).length = 8 := by simp [h1]
  have htk : (p1.drop 12).take 12 = p1.drop 12 := List.take_of_length_le (by omega)
  refine ⟨rfl, rfl, rfl, ?_, ?_⟩ <;>
  · simp only [fetch_window_by_ui_page, fetchWindow, api_page, offset, start_global,
      UI_PAGE_SIZE, UI_COLS, UI_ROWS, TMDB_PAGE_SIZE]
    norm_num [htk, hd, Nat.min_eq_left h2, List.length_take, List.length_drop, h1, h2]

/-- Witness for `claim2_boundary_stitch` with both upstream pages equal
to `List.range 20`. -/
theorem claim2_witness :
    start_global UI_PAGE_SIZE 2 = 12 ∧
    api_page TMDB_PAGE_SIZE UI_PAGE_SIZE 2 = 1 ∧
    offset TMDB_PAGE_SIZE UI_PAGE_SIZE 2 = 12 ∧
    (fetch_window_by_ui_page
        (fun n => if n = 1 then (List.range 20, 40, 2) else (List.range 20, 40, 2)) 2).1.1
      = (List.range 20).drop 12 ++ (List.range 20).take 4 ∧
    (fetch_window_by_ui_page
        (fun n => if n = 1 then (List.range 20, 40, 2) else (List.range 20, 40, 2)) 2).1.1.length
      = 12 :=
  claim2_boundary_stitch (List.range 20) (List.range 20) 40 2 (by decide) (by decide)

/-- Claim C3: for every fetcher, the returned `totalDisplayPages` is
`max(1, ceil(totalItems / 12))` where `totalItems` is reported by the
first fetched upstream page — stated by its defining inequalities:
it is at least 1, covers `totalItems`, and is either 1 or minimal.
When `totalItems = 0` (empty upstream) the adapter returns the window
`([], 0, 1)`, never `totalDisplayPages = 0`. -/
theorem claim3_total_display_pages {α : Type} (fetch : Nat → Page α) (p : Nat) :
    (1 ≤ (fetch_window_by_ui_page fetch p).1.2.2 ∧
      (fetch (api_page TMDB_PAGE_SIZE UI_PAGE_SIZE p)).2.1
        ≤ 12 * (fetch_window_by_ui_page fetch p).1.2.2 ∧
      ((fetch_window_by_ui_page fetch p).1.2.2 = 1 ∨
        12 * ((fetch_window_by_ui_page fetch p).1.2.2 - 1)
          < (fetch (api_page TMDB_PAGE_SIZE UI_PAGE_SIZE p)).2.1)) ∧
    (fetch_window_by_ui_page (idealFetch 20 ([] : List α)) p).1 = ([], 0, 1) := by
  constructor
  · have h : (fetch_window_by_ui_page fetch p).1.2.2
        = max 1 (((fetch (api_page TMDB_PAGE_SIZE UI_PAGE_SIZE p)).2.1 + 11) / 12) := by
      simp only [fetch_window_by_ui_page, fetchWindow, UI_PAGE_SIZE, UI_COLS, UI_ROWS,
        TMDB_PAGE_SIZE]
      split <;> rfl
    rw [h]; omega
  · simp [fetch_window_by_ui_page, fetchWindow, idealFetch, UI_PAGE_SIZE, UI_COLS, UI_ROWS,
      TMDB_PAGE_SIZE]

/-- Claim C4, as amended: the adapter fetches a second upstream page
exactly when the slice taken from the first page is shorter than
`displayPageSize` — equivalently, when the first page holds fewer than
`offsetInPage + 12` items — regardless of whether more items may exist
beyond the first page.  The original "only when more items may exist"
claim is refuted by `claim4_counterexample`. -/
theorem claim4_second_fetch_condition {α : Type} (fetch : Nat → Page α) (p : Nat) :
    (fetch_window_by_ui_page fetch p).2 =
      if (fetch (api_page TMDB_PAGE_SIZE UI_PAGE_SIZE p)).1.length
          < offset TMDB_PAGE_SIZE UI_PAGE_SIZE p + 12
      then [api_page TMDB_PAGE_SIZE UI_PAGE_SIZE p,
            api_page TMDB_PAGE_SIZE UI_PAGE_SIZE p + 1]
      else [api_page TMDB_PAGE_SIZE UI_PAGE_SIZE p] := by
  simp only [fetch_window_by_ui_page, fetchWindow, UI_PAGE_SIZE, UI_COLS, UI_ROWS,
    TMDB_PAGE_SIZE, List.length_take, List.length_drop]
  split <;> rename_i h
  · rw [if_pos (by omega)]
  · rw [if_neg (by omega)]

/-- Claim C4 as originally stated is false: with 5 total upstream items
(`total_pages = 1 = upstreamPageNumber`, so no items can exist beyond
the first fetched page, the shortfall being pure end-of-results), the
adapter still issues a second fetch: its upstream call list is
`[1, 2]`. -/
theorem claim4_counterexample :
    (fetch_window_by_ui_page (idealFetch 20 (List.range 5)) 1).2 = [1, 2] ∧
    (idealFetch 20 (List.range 5) (api_page TMDB_PAGE_SIZE UI_PAGE_SIZE 1)).2.2
      = api_page TMDB_PAGE_SIZE UI_PAGE_SIZE 1 := by decide

/-- Claim C5: resolving the same display page twice, the second time at
any instant within the 600-second TTL of the first, yields an identical
window and leaves the producer-call count unchanged (zero additional
upstream fetches); and, generically, two `memoize` calls with the same
key within the TTL window invoke the producer exactly once, the second
call returning the stored value with the cache unchanged. -/
theorem claim5_cache_idempotence {α : Type} (producer : Nat → Page α) (p t0 t1 : Nat)
    {κ β : Type} [DecidableEq κ] (c : Cache κ β) (k : κ) (ttl now1 now2 : Nat)
    (prod : Unit → β) (h : t1 < t0 + 600) (hmiss : lookupFresh c k now1 = none)
    (h2 : now2 < now1 + ttl) :
    ((fetchWindowCached producer 600 t1 (fetchWindowCached producer 600 t0 ([], 0) p).2 p).1
        = (fetchWindowCached producer 600 t0 ([], 0) p).1 ∧
      (fetchWindowCached producer 600 t1 (fetchWindowCached producer 600 t0 ([], 0) p).2 p).2.2
        = (fetchWindowCached producer 600 t0 ([], 0) p).2.2) ∧
    ((memoize c k ttl now1 prod).2.2 = true ∧
      (memoize (memoize c k ttl now1 prod).2.1 k ttl now2 prod).2.2 = false ∧
      (memoize (memoize c k ttl now1 prod).2.1 k ttl now2 prod).1
        = (memoize c k ttl now1 prod).1 ∧
      (memoize (memoize c k ttl now1 prod).2.1 k ttl now2 prod).2.1
        = (memoize c k ttl now1 prod).2.1) := by
  constructor
  · have hne : api_page TMDB_PAGE_SIZE UI_PAGE_SIZE p + 1
        ≠ api_page TMDB_PAGE_SIZE UI_PAGE_SIZE p := by omega
    have e1 : cachedFetch producer 600 t0 ([], 0)
        (api_page TMDB_PAGE_SIZE UI_PAGE_SIZE p)
        = (producer (api_page TMDB_PAGE_SIZE UI_PAGE_SIZE p),
          ⟨api_page TMDB_PAGE_SIZE UI_PAGE_SIZE p,
            producer (api_page TMDB_PAGE_SIZE UI_PAGE_SIZE p), t0 + 600⟩ :: [], 0 + 1) :=
      cachedFetch_miss rfl
    rw [fetchWindowCached_eq_of producer 600 t0 ([], 0) p _ _ e1]
    by_cases hneed : 0 < UI_PAGE_SIZE -
        (((producer (api_page TMDB_PAGE_SIZE UI_PAGE_SIZE p)).1.drop
          (offset TMDB_PAGE_SIZE UI_PAGE_SIZE p)).take UI_PAGE_SIZE).length
    · rw [if_pos hneed]
      have e2 : cachedFetch producer 600 t0
          (⟨api_page TMDB_PAGE_SIZE UI_PAGE_SIZE p,
            producer (api_page TMDB_PAGE_SIZE UI_PAGE_SIZE p), t0 + 600⟩ :: [], 0 + 1)
          (api_page TMDB_PAGE_SIZE UI_PAGE_SIZE p + 1)
          = (producer (api_page TMDB_PAGE_SIZE UI_PAGE_SIZE p + 1),
            ⟨api_page TMDB_PAGE_SIZE UI_PAGE_SIZE p + 1,
              producer (api_page TMDB_PAGE_SIZE UI_PAGE_SIZE p + 1), t0 + 600⟩ ::
              ⟨api_page TMDB_PAGE_SIZE UI_PAGE_SIZE p,
                producer (api_page TMDB_PAGE_SIZE UI_PAGE_SIZE p), t0 + 600⟩ :: [],
            0 + 1 + 1) :=
        cachedFetch_miss (by rw [lookupFresh_cons_ne (Ne.symm hne)]; rfl)
      rw [e2]
      have e3 : cachedFetch producer 600 t1
          (⟨api_page TMDB_PAGE_SIZE UI_PAGE_SIZE p + 1,
              producer (api_page TMDB_PAGE_SIZE UI_PAGE_SIZE p + 1), t0 + 600⟩ ::
            ⟨api_page TMDB_PAGE_SIZE UI_PAGE_SIZE p,
              producer (api_page TMDB_PAGE_SIZE UI_PAGE_SIZE p), t0 + 600⟩ :: [],
            0 + 1 + 1)
          (api_page TMDB_PAGE_SIZE UI_PAGE_SIZE p)
          = (producer (api_page TMDB_PAGE_SIZE UI_PAGE_SIZE p),
            ⟨api_page TMDB_PAGE_SIZE UI_PAGE_SIZE p + 1,
              producer (api_page TMDB_PAGE_SIZE UI_PAGE_SIZE p + 1), t0 + 600⟩ ::
            ⟨api_page TMDB_PAGE_SIZE UI_PAGE_SIZE p,
              producer (api_page TMDB_PAGE_SIZE UI_PAGE_SIZE p), t0 + 600⟩ :: [],
            0 + 1 + 1) :=
        cachedFetch_hit (by
          rw [lookupFresh_cons_ne hne, lookupFresh_cons_self _ _ _ _ _ h])
      rw [fetchWindowCached_eq_of producer 600 t1 _ p _ _ e3, if_pos hneed]
      have e4 : cachedFetch producer 600 t1
          (⟨api_page TMDB_PAGE_SIZE UI_PAGE_SIZE p + 1,
              producer (api_page TMDB_PAGE_SIZE UI_PAGE_SIZE p + 1), t0 + 600⟩ ::
            ⟨api_page TMDB_PAGE_SIZE UI_PAGE_SIZE p,
              producer (api_page TMDB_PAGE_SIZE UI_PAGE_SIZE p), t0 + 600⟩ :: [],
            0 + 1 + 1)
          (api_page TMDB_PAGE_SIZE UI_PAGE_SIZE p + 1)
          = (producer (api_page TMDB_PAGE_SIZE UI_PAGE_SIZE p + 1),
            ⟨api_page TMDB_PAGE_SIZE UI_PAGE_SIZE p + 1,
              producer (api_page TMDB_PAGE_SIZE UI_PAGE_SIZE p + 1), t0 + 600⟩ ::
            ⟨api_page TMDB_PAGE_SIZE UI_PAGE_SIZE p,
              producer (api_page TMDB_PAGE_SIZE UI_PAGE_SIZE p), t0 + 600⟩ :: [],
            0 + 1 + 1) :=
        cachedFetch_hit (lookupFresh_cons_self _ _ _ _ _ h)
      rw [e4]
      exact ⟨rfl, rfl⟩
    · rw [if_neg hneed]
      have e3 : cachedFetch producer 600 t1
          (⟨api_page TMDB_PAGE_SIZE UI_PAGE_SIZE p,
              producer (api_page TMDB_PAGE_SIZE UI_PAGE_SIZE p), t0 + 600⟩ :: [], 0 + 1)
          (api_page TMDB_PAGE_SIZE UI_PAGE_SIZE p)
          = (producer (api_page TMDB_PAGE_SIZE UI_PAGE_SIZE p),
            ⟨api_page TMDB_PAGE_SIZE UI_PAGE_SIZE p,
              producer (api_page TMDB_PAGE_SIZE UI_PAGE_SIZE p), t0 + 600⟩ :: [], 0 + 1) :=
        cachedFetch_hit (lookupFresh_cons_self _ _ _ _ _ h)
      rw [fetchWindowCached_eq_of producer 600 t1 _ p _ _ e3, if_neg hneed]
      exact ⟨rfl, rfl⟩
  · rw [memoize_of_lookup_none ttl prod hmiss]
    have hl := lookupFresh_cons_self k (prod ()) (now1 + ttl) c now2 h2
    simp [memoize, hl]

/-- Witness for `claim5_cache_idempotence`: a 40-item upstream, first
resolution at `t0 = 0`, second at `t1 = 5`; generic memoize part over
`Nat` keys and values. -/
theorem claim5_witness :
    ((fetchWindowCached (idealFetch 20 (List.range 40)) 600 5
          (fetchWindowCached (idealFetch 20 (List.range 40)) 600 0 ([], 0) 1).2 1).1
        = (fetchWindowCached (idealFetch 20 (List.range 40)) 600 0 ([], 0) 1).1 ∧
      (fetchWindowCached (idealFetch 20 (List.range 40)) 600 5
          (fetchWindowCached (idealFetch 20 (List.range 40)) 600 0 ([], 0) 1).2 1).2.2
        = (fetchWindowCached (idealFetch 20 (List.range 40)) 600 0 ([], 0) 1).2.2) ∧
    ((memoize ([] : Cache Nat Nat) 0 600 0 (fun _ => 7)).2.2 = true ∧
      (memoize (memoize ([] : Cache Nat Nat) 0 600 0 (fun _ => 7)).2.1 0 600 1
          (fun _ => 7)).2.2 = false ∧
      (memoize (memoize ([] : Cache Nat Nat) 0 600 0 (fun _ => 7)).2.1 0 600 1
          (fun _ => 7)).1
        = (memoize ([] : Cache Nat Nat) 0 600 0 (fun _ => 7)).1 ∧
      (memoize (memoize ([] : Cache Nat Nat) 0 600 0 (fun _ => 7)).2.1 0 600 1
          (fun _ => 7)).2.1
        = (memoize ([] : Cache Nat Nat) 0 600 0 (fun _ => 7)).2.1) :=
  claim5_cache_idempotence (idealFetch 20 (List.range 40)) 1 0 5
    ([] : Cache Nat Nat) 0 600 0 1 (fun _ => 7) (by decide) rfl (by decide)

/-- Claim C6, as amended: `tmdb_get` fails with the auth error when no
credential is configured, issuing zero network calls; with a credential
it fails with an upstream error carrying the HTTP status and body on
any 4xx or 5xx response (the statuses `raise_for_status` raises on —
not every non-2xx status, see `claim6_counterexample`); and it fails
with a network error on connection failure or when the request exceeds
the fixed 20-unit timeout budget. -/
theorem claim6_error_taxonomy (k : String) (w : HttpWorld) (status lat lat' : Nat)
    (body : String) (resp : Option (Nat × String)) (hk : k ≠ "")
    (h4 : 400 ≤ status) (h6 : status < 600) (hlat : lat ≤ 20) (hlat' : 20 < lat') :
    (tmdb_get "" w = (.error .authError, 0)) ∧
    (tmdb_get k ⟨lat, some (status, body)⟩ = (.error (.upstreamError status body), 1)) ∧
    (tmdb_get k ⟨lat, none⟩ = (.error .networkError, 1)) ∧
    (tmdb_get k ⟨lat', resp⟩ = (.error .networkError, 1)) := by
  refine ⟨by simp [tmdb_get], ?_, ?_, ?_⟩
  · simp [tmdb_get, requests_get, raise_for_status, hk, Nat.not_lt.mpr hlat, h4, h6]
  · simp [tmdb_get, requests_get, hk, Nat.not_lt.mpr hlat]
  · simp [tmdb_get, requests_get, hk, hlat']

/-- Claim C6 as originally stated is false on "any non-2xx HTTP
response": a final response with status 304 — not a 2xx status — is
returned as success by `tmdb_get`, because `raise_for_status` raises
only for 4xx/5xx statuses. -/
theorem claim6_counterexample :
    tmdb_get "k" ⟨0, some (304, "not modified")⟩ = (.ok "not modified", 1) ∧
    ¬(200 ≤ 304 ∧ 304 < 300) :=
  ⟨rfl, by decide⟩

/-- Witness for `claim6_error_taxonomy` with credential `"k"`, a 404
response, latency 0 for the in-budget cases and 21 for the timeout
case. -/
theorem claim6_witness :
    (tmdb_get "" ⟨0, some (200, "ok")⟩ = (.error .authError, 0)) ∧
    (tmdb_get "k" ⟨0, some (404, "nf")⟩ = (.error (.upstreamError 404 "nf"), 1)) ∧
    (tmdb_get "k" ⟨0, none⟩ = (.error .networkError, 1)) ∧
    (tmdb_get "k" ⟨21, some (200, "ok")⟩ = (.error .networkError, 1)) :=
  claim6_error_taxonomy "k" ⟨0, some (200, "ok")⟩ 404 0 21 "nf" (some (200, "ok"))
    (by decide) (by decide) (by decide) (by decide) (by decide)

/-- Claim C7: when the producer underlying a memoized endpoint fails,
no cache entry is stored (the cache is returned unchanged) and the
failure propagates unmodified; and window resolution aborts with the
fetch's error — returning no partial window — whether the first fetch
fails or the stitching second fetch fails. -/
theorem claim7_failure_propagation {κ α ε : Type} [DecidableEq κ] (c : Cache κ α)
    (k : κ) (ttl now : Nat) (e : ε) (fetch1 fetch2 : Nat → Except ε (Page α))
    (p : Nat) (pg1 : Page α) (hmiss : lookupFresh c k now = none)
    (hf1 : fetch1 (api_page TMDB_PAGE_SIZE UI_PAGE_SIZE p) = .error e)
    (hok : fetch2 (api_page TMDB_PAGE_SIZE UI_PAGE_SIZE p) = .ok pg1)
    (hshort : ((pg1.1.drop (offset TMDB_PAGE_SIZE UI_PAGE_SIZE p)).take UI_PAGE_SIZE).length
      < UI_PAGE_SIZE)
    (hf2 : fetch2 (api_page TMDB_PAGE_SIZE UI_PAGE_SIZE p + 1) = .error e) :
    (memoizeE c k ttl now (fun _ => .error e) = (.error e, c)) ∧
    (fetchWindowE fetch1 p = .error e) ∧
    (fetchWindowE fetch2 p = .error e) := by
  refine ⟨by simp [memoizeE, hmiss], by simp [fetchWindowE, hf1], ?_⟩
  simp only [fetchWindowE, hok]
  rw [if_pos (by omega)]
  simp [hf2]

/-- Witness for `claim7_failure_propagation`: `Nat` keys and error
codes, a fetcher that always fails and a fetcher whose first page holds
5 items and whose second fetch fails. -/
theorem claim7_witness :
    (memoizeE ([] : Cache Nat Nat) 0 600 0 (fun _ => (.error 401 : Except Nat Nat))
      = (.error 401, [])) ∧
    (fetchWindowE (fun _ => (.error 401 : Except Nat (Page Nat))) 1 = .error 401) ∧
    (fetchWindowE
        (fun n => if n = 1 then (.ok (List.range 5, 5, 1) : Except Nat (Page Nat))
          else .error 401) 1 = .error 401) :=
  claim7_failure_propagation ([] : Cache Nat Nat) 0 600 0 401
    (fun _ => (.error 401 : Except Nat (Page Nat)))
    (fun n => if n = 1 then (.ok (List.range 5, 5, 1) : Except Nat (Page Nat))
      else .error 401)
    1 (List.range 5, 5, 1) rfl rfl rfl (by decide) rfl

/-- Claim C8, as amended: `discover_movies` builds its upstream request
parameters with the genre list serialised as one comma-joined string,
the vote and runtime ranges as two separate gte/lte parameters, the
boolean and all other values passed through verbatim; the genre, year,
region and original-language criteria are omitted entirely when absent
(or Python-falsy), but the boolean and the range bounds are always
sent, including at their default values (the original "default-valued
criteria are omitted" claim is refuted by `claim8_counterexample`). -/
theorem claim8_request_params (page : Nat) (lang : String)
    (with_genres : Option (List Nat)) (year : Option Nat) (region : Option String)
    (sort_by : String) (include_adult : Bool) (vote_gte vote_lte : ℚ)
    (runtime_gte runtime_lte : Nat) (original_lang : Option String) :
    (discover_params page lang with_genres year region sort_by include_adult
        vote_gte vote_lte runtime_gte runtime_lte original_lang =
      [("language", .s lang), ("page", .n page), ("sort_by", .s sort_by),
        ("include_adult", .b include_adult), ("vote_average.gte", .q vote_gte),
        ("vote_average.lte", .q vote_lte), ("with_runtime.gte", .n runtime_gte),
        ("with_runtime.lte", .n runtime_lte)]
      ++ (if with_genres.getD [] ≠ [] then
            [("with_genres",
              .s (String.intercalate "," ((with_genres.getD []).map toString)))]
          else [])
      ++ (if year.getD 0 ≠ 0 then [("primary_release_year", .n (year.getD 0))] else [])
      ++ (if region.getD "" ≠ "" then [("region", .s (region.getD ""))] else [])
      ++ (if original_lang.getD "" ≠ "" then
            [("with_original_language", .s (original_lang.getD ""))]
          else [])) ∧
    ((discover_params page lang with_genres year region sort_by include_adult
        vote_gte vote_lte runtime_gte runtime_lte original_lang).map Prod.fst =
      ["language", "page", "sort_by", "include_adult", "vote_average.gte",
        "vote_average.lte", "with_runtime.gte", "with_runtime.lte"]
      ++ (if with_genres.getD [] ≠ [] then ["with_genres"] else [])
      ++ (if year.getD 0 ≠ 0 then ["primary_release_year"] else [])
      ++ (if region.getD "" ≠ "" then ["region"] else [])
      ++ (if original_lang.getD "" ≠ "" then ["with_original_language"] else [])) := by
  have he : discover_params page lang with_genres year region sort_by include_adult
      vote_gte vote_lte runtime_gte runtime_lte original_lang =
      [("language", .s lang), ("page", .n page), ("sort_by", .s sort_by),
        ("include_adult", .b include_adult), ("vote_average.gte", .q vote_gte),
        ("vote_average.lte", .q vote_lte), ("with_runtime.gte", .n runtime_gte),
        ("with_runtime.lte", .n runtime_lte)]
      ++ (if with_genres.getD [] ≠ [] then
            [("with_genres",
              .s (String.intercalate "," ((with_genres.getD []).map toString)))]
          else [])
      ++ (if year.getD 0 ≠ 0 then [("primary_release_year", .n (year.getD 0))] else [])
      ++ (if region.getD "" ≠ "" then [("region", .s (region.getD ""))] else [])
      ++ (if original_lang.getD "" ≠ "" then
            [("with_original_language", .s (original_lang.getD ""))]
          else []) := by
    rcases with_genres with _ | gs <;> rcases year with _ | y <;>
      rcases region with _ | r <;> rcases original_lang with _ | ol <;>
      simp only [discover_params, Option.getD_some, Option.getD_none] <;>
      split_ifs <;> simp_all
  refine ⟨he, ?_⟩
  rw [he]
  by_cases h1 : with_genres.getD [] ≠ [] <;> by_cases h2 : year.getD 0 ≠ 0 <;>
    by_cases h3 : region.getD "" ≠ "" <;> by_cases h4 : original_lang.getD "" ≠ "" <;>
    simp [h1, h2, h3, h4]

/-- Claim C8 as originally stated is false on "default-valued criteria
are omitted": with every argument at its default, the built parameters
still contain the default-valued `vote_average.gte` range bound and the
default-valued `include_adult` flag. -/
theorem claim8_counterexample :
    "vote_average.gte" ∈ (discover_params 1 "en-US" none none none "popularity.desc"
        false 0 10 0 400 none).map Prod.fst ∧
    "include_adult" ∈ (discover_params 1 "en-US" none none none "popularity.desc"
        false 0 10 0 400 none).map Prod.fst := by
  constructor <;> simp [discover_params]

/-- Claim C9: one window resolution performs at most two upstream
fetches; the call list is either `[upstreamPageNumber]` or
`[upstreamPageNumber, upstreamPageNumber + 1]` in that order; and the
call list is already determined by the first page's result — any two
fetchers agreeing on the first fetched page make exactly the same
calls, formalising that the second fetch is decided only after (and
from) the first fetch's result, never independently/in parallel. -/
theorem claim9_sequential_fetches {α : Type} (fetch g : Nat → Page α) (p : Nat)
    (hagree : g (api_page TMDB_PAGE_SIZE UI_PAGE_SIZE p)
      = fetch (api_page TMDB_PAGE_SIZE UI_PAGE_SIZE p)) :
    (fetch_window_by_ui_page fetch p).2.length ≤ 2 ∧
    ((fetch_window_by_ui_page fetch p).2 = [api_page TMDB_PAGE_SIZE UI_PAGE_SIZE p] ∨
      (fetch_window_by_ui_page fetch p).2
        = [api_page TMDB_PAGE_SIZE UI_PAGE_SIZE p,
            api_page TMDB_PAGE_SIZE UI_PAGE_SIZE p + 1]) ∧
    (fetch_window_by_ui_page g p).2 = (fetch_window_by_ui_page fetch p).2 := by
  refine ⟨?_, ?_, ?_⟩ <;> simp only [fetch_window_by_ui_page, fetchWindow, hagree] <;>
    split <;> simp

/-- Witness for `claim9_sequential_fetches` with two distinct fetchers
agreeing on the first fetched page. -/
theorem claim9_witness :
    (fetch_window_by_ui_page (idealFetch 20 (List.range 30)) 1).2.length ≤ 2 ∧
    ((fetch_window_by_ui_page (idealFetch 20 (List.range 30)) 1).2
        = [api_page TMDB_PAGE_SIZE UI_PAGE_SIZE 1] ∨
      (fetch_window_by_ui_page (idealFetch 20 (List.range 30)) 1).2
        = [api_page TMDB_PAGE_SIZE UI_PAGE_SIZE 1,
            api_page TMDB_PAGE_SIZE UI_PAGE_SIZE 1 + 1]) ∧
    (fetch_window_by_ui_page
        (fun n => if n = 1 then idealFetch 20 (List.range 30) 1 else ([], 99, 99)) 1).2
      = (fetch_window_by_ui_page (idealFetch 20 (List.range 30)) 1).2 :=
  claim9_sequential_fetches (idealFetch 20 (List.range 30))
    (fun n => if n = 1 then idealFetch 20 (List.range 30) 1 else ([], 99, 99)) 1
    (by decide)

/-- Claim C10: the memoization key covers only the wrapper's explicit
arguments, not the credential read from session state inside
`tmdb_get`; hence once an entry is warm, a later call with identical
arguments within the TTL returns the stored value with zero network
calls, and its outcome is identical for every credential configured at
the time of the second call — including an empty/invalid one. -/
theorem claim10_credential_not_in_key {α : Type} (upstream : SearchKey → α)
    (k : SearchKey) (cred1 cred2 cred2' : String) (t0 t1 : Nat)
    (h1 : cred1 ≠ "") (h2 : t1 < t0 + 600) :
    (search_movies_cached upstream (search_movies_cached upstream [] t0 cred1 k).2.1
        t1 cred2 k
      = (.ok (upstream k), (search_movies_cached upstream [] t0 cred1 k).2.1, 0)) ∧
    (search_movies_cached upstream (search_movies_cached upstream [] t0 cred1 k).2.1
        t1 cred2 k
      = search_movies_cached upstream (search_movies_cached upstream [] t0 cred1 k).2.1
        t1 cred2' k) := by
  have hc : (search_movies_cached upstream [] t0 cred1 k).2.1
      = [⟨k, upstream k, t0 + 600⟩] := by
    simp [search_movies_cached, lookupFresh, h1]
  rw [hc]
  have hl := lookupFresh_cons_self k (upstream k) (t0 + 600) ([] : Cache SearchKey α) t1 h2
  simp [search_movies_cached, hl]

/-- Witness for `claim10_credential_not_in_key`: warm the cache with a
valid credential at `t0 = 0`, re-query at `t1 = 5` with an empty
credential — the stored value is returned with zero network calls, and
the outcome equals the one under any other credential. -/
theorem claim10_witness :
    (search_movies_cached (fun _ => 42)
        (search_movies_cached (fun _ => 42) [] 0 "valid" ("dune", 1, "en-US")).2.1
        5 "" ("dune", 1, "en-US")
      = (.ok 42,
        (search_movies_cached (fun _ => 42) [] 0 "valid" ("dune", 1, "en-US")).2.1, 0)) ∧
    (search_movies_cached (fun _ => 42)
        (search_movies_cached (fun _ => 42) [] 0 "valid" ("dune", 1, "en-US")).2.1
        5 "" ("dune", 1, "en-US")
      = search_movies_cached (fun _ => 42)
        (search_movies_cached (fun _ => 42) [] 0 "valid" ("dune", 1, "en-US")).2.1
        5 "other" ("dune", 1, "en-US")) :=
  claim10_credential_not_in_key (fun _ => 42) ("dune", 1, "en-US") "valid" "" "other"
    0 5 (by decide) (by decide)

end Movie
